import Mathlib

/-!
# Verification of the quantlo hot-path ledger engine

Shallow embedding of the quantlo repository's core:

* `spendScript` — the atomic spend script `src/internal/repository/spend.lua`,
  modelled as a single pure transition on the fast-store state (the script runs
  server-side as one indivisible unit, so one function application is the
  faithful model of one execution);
* `executeLua`, `Spend`, `Recharge`, `GetBalance`, `CreateAccount`,
  `DeleteAccount`, `warmUpCache`, `SyncTransactionWithBalance` — the
  `LedgerRepo` methods of `src/unnamed/part_002` (the current repository
  implementation, the one wired to `service.LedgerService` and the
  transports);
* `syncTransactionWithBalanceChecked` — the older draft of
  `SyncTransactionWithBalance` in `src/internal/repository/ledger.go`
  (lines 172–214), which, unlike the current code, checks the number of rows
  affected by the balance update.

The state models the rows and keys for one fixed `(account_id, resource_type)`
pair — every claim under scrutiny concerns a single such pair — while
idempotency keys and the `transactions` table are keyed by arbitrary strings,
since the claims quantify over many keys.  Timestamps are abstract naturals;
`updated_at` bookkeeping is not modelled (no claim mentions it).  TTLs are
recorded where the code sets them (`idem:` markers, `deleted:` sentinels) but
no clock-expiry step is modelled: a present marker stands for an unexpired
marker.
-/

/-- A value stored at the fast-store balance key `balance:{account}:{resource}`:
the integer balance together with its expiry (`none` = no TTL; every write in
the code uses TTL 0, i.e. no expiry, and Redis `DECRBY` preserves the TTL). -/
structure BalEntry where
  value : Int
  expiry : Option Nat
deriving DecidableEq, Repr

/-- The fast store (Redis) as seen by the ledger for one (account, resource):
the balance key, the `idem:{key}` markers (value = TTL in seconds with which
the marker was set), and the `deleted:{account}:{resource}` sentinel. -/
structure FastStore where
  balance : Option BalEntry
  idem : String → Option Nat
  deleted : Option Nat

/-- A row of the durable-store `balances` table (migration
`src/unnamed/part_004`): `amount BIGINT`, `deleted_at` nullable timestamp. -/
structure BalRow where
  amount : Int
  deletedAt : Option Nat
deriving DecidableEq, Repr

/-- A row of the durable-store `transactions` table (migration
`src/internal/repository/migrations/00002_create_transactions_table.sql`),
keyed externally by its unique `idempotency_key`. -/
structure TxRow where
  accountId : String
  resourceType : String
  amount : Int
  createdAt : Nat
deriving DecidableEq, Repr

/-- The durable store (Postgres): the `balances` row for the fixed
(account, resource) pair, and the `transactions` table keyed by
`idempotency_key` (unique across the table). -/
structure DSState where
  balance : Option BalRow
  transactions : String → Option TxRow

/-- The raw reply of `spend.lua`: a status code (`1`, `0`, `-1`, `-2`) plus,
for status `1`, the new balance (the error replies carry a string tag, not a
number, hence `none`). -/
structure ScriptReply where
  code : Int
  newBalance : Option Int
deriving DecidableEq, Repr

/-- `src/internal/repository/spend.lua`, executed with
`KEYS[1] = balance:{account}:{resource}`, `KEYS[2] = idem:{idemKey}`,
`ARGV[1] = amount`:

1. if `EXISTS idem:{idemKey}` return `{0, "ALREADY_PROCESSED"}`;
2. if `GET balance` is nil return `{-1, "BALANCE_NOT_FOUND"}`;
3. if `balance < amount` return `{-2, "INSUFFICIENT_FUNDS"}`;
4. `DECRBY balance amount` (keeps the key's TTL), then
   `SET idem:{idemKey} "1" EX 86400`, and return `{1, new_balance}`.

The whole script is one indivisible server-side execution, modelled as one
pure transition on `FastStore`. -/
def spendScript (st : FastStore) (idemKey : String) (amount : Int) :
    ScriptReply × FastStore :=
  if (st.idem idemKey).isSome then
    ({ code := 0, newBalance := none }, st)
  else
    match st.balance with
    | none => ({ code := -1, newBalance := none }, st)
    | some e =>
      if e.value < amount then
        ({ code := -2, newBalance := none }, st)
      else
        let nb := e.value - amount
        ({ code := 1, newBalance := some nb },
         { st with
            balance := some { e with value := nb },
            idem := fun s => if s = idemKey then some 86400 else st.idem s })

/-- The outcome of `LedgerRepo.executeLua` (`src/unnamed/part_002`,
lines 172–198): either a `SpendResult{NewBalance, Status: "SUCCESS"}` or one
of the sentinel errors. -/
inductive LuaOutcome where
  | ok (newBalance : Int)
  | errAlreadyProcessed
  | errCacheMiss
  | errInsufficient
  | errUnknown (code : Int)
deriving DecidableEq, Repr

/-- `LedgerRepo.executeLua`: runs the spend script and maps the status code —
`1 → SpendResult{newBalance, SUCCESS}` (and a fire-and-forget event publish,
not modelled: publish failure is logged and swallowed), `0 →
ErrAlreadyProcessed`, `-1 → ErrCacheMiss`, `-2 → ErrInsufficient`, default →
"unknown lua status".  The `errUnknown 1` branch models the type-assertion
failure the Go code would hit if status 1 ever came without a balance; the
script never produces that. -/
def executeLua (st : FastStore) (idemKey : String) (amount : Int) :
    LuaOutcome × FastStore :=
  let r := spendScript st idemKey amount
  let out :=
    if r.1.code = 1 then
      match r.1.newBalance with
      | some nb => LuaOutcome.ok nb
      | none => LuaOutcome.errUnknown 1
    else if r.1.code = 0 then LuaOutcome.errAlreadyProcessed
    else if r.1.code = -1 then LuaOutcome.errCacheMiss
    else if r.1.code = -2 then LuaOutcome.errInsufficient
    else LuaOutcome.errUnknown r.1.code
  (out, r.2)

/-- The sentinel errors of `src/unnamed/part_002` (plus `redisNil`, go-redis's
`redis.Nil` returned by a bare `GET` on a missing key). -/
inductive LedgerError where
  | alreadyProcessed
  | cacheMiss
  | insufficient
  | notFoundInDB
  | accountDeleted
  | alreadyExists
  | redisNil
  | unknown (code : Int)
deriving DecidableEq, Repr

/-- Folds a `LuaOutcome` into the `(result, error)` pair `executeLua` hands to
its callers. -/
def luaToResult : LuaOutcome → Except LedgerError Int
  | .ok nb => .ok nb
  | .errAlreadyProcessed => .error .alreadyProcessed
  | .errCacheMiss => .error .cacheMiss
  | .errInsufficient => .error .insufficient
  | .errUnknown c => .error (.unknown c)

/-- `LedgerRepo.warmUpCache` (`src/unnamed/part_002`, lines 200–218):
`SELECT amount, deleted_at FROM balances WHERE …`; no row →
`ErrNotFoundInDB`; `deleted_at` set → "account is deleted"; otherwise write
the stored amount into the balance key with no expiry (`Set(…, 0)`). -/
def warmUpCache (ds : DSState) (st : FastStore) : Except LedgerError FastStore :=
  match ds.balance with
  | none => .error .notFoundInDB
  | some row =>
    if row.deletedAt.isSome then .error .accountDeleted
    else .ok { st with balance := some { value := row.amount, expiry := none } }

/-- `LedgerRepo.Spend` (`src/unnamed/part_002`, lines 47–61): run the script;
on `ErrCacheMiss` warm up the cache from the durable store and, if the warm-up
succeeded, run the script exactly one more time and return whatever it says;
every other first outcome is returned as is.  The third component counts the
script executions performed (1 or 2 by construction). -/
def Spend (ds : DSState) (st : FastStore) (idemKey : String) (amount : Int) :
    Except LedgerError Int × FastStore × Nat :=
  let r1 := executeLua st idemKey amount
  match r1.1 with
  | .errCacheMiss =>
    match warmUpCache ds r1.2 with
    | .error e => (.error e, r1.2, 1)
    | .ok st2 =>
      let r2 := executeLua st2 idemKey amount
      (luaToResult r2.1, r2.2, 2)
  | out => (luaToResult out, r1.2, 1)

/-- `LedgerRepo.Recharge` (`src/unnamed/part_002`, lines 63–80):
`UPDATE balances SET amount = amount + δ WHERE … AND deleted_at IS NULL`;
zero rows affected → `ErrNotFoundInDB`; otherwise delete (invalidate) the
fast-store balance key. -/
def Recharge (ds : DSState) (st : FastStore) (amount : Int) :
    Except LedgerError Unit × DSState × FastStore :=
  match ds.balance with
  | some row =>
    if row.deletedAt = none then
      (.ok (),
       { ds with balance := some { row with amount := row.amount + amount } },
       { st with balance := none })
    else (.error .notFoundInDB, ds, st)
  | none => (.error .notFoundInDB, ds, st)

/-- `LedgerRepo.GetBalance` (`src/unnamed/part_002`, lines 82–98): fast-store
`GET`; on miss, warm up and `GET` again (the second miss — impossible after a
successful warm-up — would surface go-redis's `redis.Nil`). -/
def GetBalance (ds : DSState) (st : FastStore) :
    Except LedgerError Int × FastStore :=
  match st.balance with
  | some e => (.ok e.value, st)
  | none =>
    match warmUpCache ds st with
    | .error e => (.error e, st)
    | .ok st1 =>
      match st1.balance with
      | some e => (.ok e.value, st1)
      | none => (.error .redisNil, st1)

/-- `LedgerRepo.CreateAccount` (`src/unnamed/part_002`, lines 100–116):
`INSERT … ON CONFLICT (account_id, resource_type) DO NOTHING`; zero rows
affected (the primary key already has a row, live or tombstoned) →
"account already exists"; otherwise also set the fast-store balance key with
no expiry. -/
def CreateAccount (ds : DSState) (st : FastStore) (initialAmount : Int) :
    Except LedgerError Unit × DSState × FastStore :=
  match ds.balance with
  | some _ => (.error .alreadyExists, ds, st)
  | none =>
    (.ok (),
     { ds with balance := some { amount := initialAmount, deletedAt := none } },
     { st with balance := some { value := initialAmount, expiry := none } })

/-- `LedgerRepo.DeleteAccount` (`src/unnamed/part_002`, lines 118–139):
`UPDATE balances SET deleted_at = NOW() WHERE … AND deleted_at IS NULL`;
zero rows affected → `ErrNotFoundInDB`; otherwise delete the fast-store
balance key and set the `deleted:…` sentinel with a 30-second TTL. -/
def DeleteAccount (ds : DSState) (st : FastStore) (now : Nat) :
    Except LedgerError Unit × DSState × FastStore :=
  match ds.balance with
  | some row =>
    if row.deletedAt = none then
      (.ok (),
       { ds with balance := some { row with deletedAt := some now } },
       { st with balance := none, deleted := some 30 })
    else (.error .notFoundInDB, ds, st)
  | none => (.error .notFoundInDB, ds, st)

/-- A spend event on the `transactions.created` topic
(`src/unnamed/part_002`, `SpendEvent`). -/
structure SpendEvent where
  accountId : String
  resourceType : String
  amount : Int
  idempotencyKey : String
  createdAt : Nat
deriving DecidableEq, Repr

/-- The Sync Worker error for a balance row the worker cannot locate (the
checked draft's `fmt.Errorf("no balance record to update for %s", …)`). -/
inductive SyncError where
  | noBalanceRow (accountId : String)
deriving DecidableEq, Repr

/-- `LedgerRepo.SyncTransactionWithBalance` (`src/unnamed/part_002`,
lines 141–170), the current implementation: inside one transaction,
`INSERT INTO transactions … ON CONFLICT (idempotency_key) DO NOTHING
RETURNING idempotency_key` scanned into `insertedKey` — the empty string
when the insert conflicted (`pgx.ErrNoRows`), the event's key otherwise.
If `insertedKey == ""` the function returns nil before `tx.Commit`, so the
deferred `tx.Rollback` discards anything the transaction did: in particular
an event whose `idempotency_key` is itself the empty string takes this path
even when its insert was fresh, rolling the insert back — a pure no-op.
Otherwise `UPDATE balances SET amount = amount − a WHERE
(account_id, resource_type) matches` — the number of affected rows is NOT
checked (and the update's error is assigned but never read) — and the
transaction is committed. -/
def SyncTransactionWithBalance (ds : DSState) (ev : SpendEvent) :
    Except SyncError Unit × DSState :=
  let insertedKey : String :=
    match ds.transactions ev.idempotencyKey with
    | some _ => ""
    | none => ev.idempotencyKey
  if insertedKey = "" then (.ok (), ds)
  else
    let inserted : String → Option TxRow := fun k =>
      if k = ev.idempotencyKey then
        some { accountId := ev.accountId, resourceType := ev.resourceType,
               amount := ev.amount, createdAt := ev.createdAt }
      else ds.transactions k
    match ds.balance with
    | some row =>
      (.ok (),
       { balance := some { row with amount := row.amount - ev.amount },
         transactions := inserted })
    | none => (.ok (), { balance := none, transactions := inserted })

/-- The older draft of `SyncTransactionWithBalance` in
`src/internal/repository/ledger.go` (lines 172–214): the same
`insertedKey == ""` detection (returning nil before commit, so the deferred
`tx.Rollback` makes it a no-op — including for a fresh insert of an
empty-string key), but when the balance update affects zero rows it returns
an error, so the rollback discards the inserted transactions row — modelled
by returning the original state untouched. -/
def syncTransactionWithBalanceChecked (ds : DSState) (ev : SpendEvent) :
    Except SyncError Unit × DSState :=
  let insertedKey : String :=
    match ds.transactions ev.idempotencyKey with
    | some _ => ""
    | none => ev.idempotencyKey
  if insertedKey = "" then (.ok (), ds)
  else
    match ds.balance with
    | some row =>
      (.ok (),
       { balance := some { row with amount := row.amount - ev.amount },
         transactions := fun k =>
           if k = ev.idempotencyKey then
             some { accountId := ev.accountId, resourceType := ev.resourceType,
                    amount := ev.amount, createdAt := ev.createdAt }
           else ds.transactions k })
    | none => (.error (.noBalanceRow ev.accountId), ds)

/-- Sequentially executes the spend script (through `executeLua`) once per
idempotency key in the list, all with the same amount, threading the
fast-store state; returns the outcomes in order and the final state. -/
def runSpends : FastStore → Int → List String → List LuaOutcome × FastStore
  | st, _, [] => ([], st)
  | st, n, k :: ks =>
    let r := executeLua st k n
    let rest := runSpends r.2 n ks
    (r.1 :: rest.1, rest.2)

/-- Sequentially executes the spend script with one fixed idempotency key and
the listed amounts, threading the fast-store state. -/
def runSameKey : FastStore → String → List Int → List ScriptReply × FastStore
  | st, _, [] => ([], st)
  | st, k, n :: ns =>
    let r := spendScript st k n
    let rest := runSameKey r.2 k ns
    (r.1 :: rest.1, rest.2)

/-- Number of SUCCESS outcomes in a list of script outcomes. -/
def countOk (outs : List LuaOutcome) : Nat :=
  outs.countP fun o => match o with | .ok _ => true | _ => false

/-- Number of INSUFFICIENT_FUNDS outcomes in a list of script outcomes. -/
def countInsufficient (outs : List LuaOutcome) : Nat :=
  outs.countP fun o => match o with | .errInsufficient => true | _ => false

/-! ## Helper lemmas -/

/-- Once the idempotency marker for `k` is present, every further execution of
the spend script with key `k` replies `{0, "ALREADY_PROCESSED"}` and leaves
the fast store exactly as it was. -/
theorem runSameKey_marked (st : FastStore) (k : String)
    (h : (st.idem k).isSome) :
    ∀ ns : List Int,
      runSameKey st k ns =
        (ns.map fun _ => ({ code := 0, newBalance := none } : ScriptReply), st) := by
  intro ns
  induction ns with
  | nil => simp [runSameKey]
  | cons n ns ihn => simp [runSameKey, spendScript, h, ihn]

/-- On a state whose balance key is present, the spend script never replies
`BALANCE_NOT_FOUND`. -/
theorem spendScript_balance_present_not_notfound (st : FastStore) (k : String)
    (n : Int) (e : BalEntry) (hb : st.balance = some e) :
    (spendScript st k n).1.code ≠ -1 := by
  by_cases hi : (st.idem k).isSome
  · simp [spendScript, hi]
  · by_cases hlt : e.value < n
    · simp [spendScript, hi, hb, hlt]
    · simp [spendScript, hi, hb, hlt]

/-! ## C1 — the atomic spend script and its caller -/

/-- **C1.** The atomic spend script, run with balance key B, idempotency key
I, and positive integer argument N, behaves exactly as specified: if I exists
it replies `{0, ALREADY_PROCESSED}`; otherwise if B does not exist it replies
`{-1, BALANCE_NOT_FOUND}`; otherwise, letting b be the value of B, if b < N
it replies `{-2, INSUFFICIENT_FUNDS}`; otherwise it sets B to b − N, sets I
with a 24-hour (86400 s) expiry, and replies `{1, b − N}` — each execution is
one transition of `spendScript` (one indivisible server-side run) — and
`executeLua` maps the four tagged outcomes to the SUCCESS result,
`ErrAlreadyProcessed`, `ErrCacheMiss`, and `ErrInsufficient` respectively. -/
theorem spend_script_and_caller_spec (st : FastStore) (k : String) (n : Int)
    (_hn : 0 < n) :
    ((st.idem k).isSome →
      spendScript st k n = ({ code := 0, newBalance := none }, st) ∧
      executeLua st k n = (.errAlreadyProcessed, st)) ∧
    (st.idem k = none → st.balance = none →
      spendScript st k n = ({ code := -1, newBalance := none }, st) ∧
      executeLua st k n = (.errCacheMiss, st)) ∧
    (∀ e, st.idem k = none → st.balance = some e → e.value < n →
      spendScript st k n = ({ code := -2, newBalance := none }, st) ∧
      executeLua st k n = (.errInsufficient, st)) ∧
    (∀ e, st.idem k = none → st.balance = some e → n ≤ e.value →
      spendScript st k n =
        ({ code := 1, newBalance := some (e.value - n) },
         { st with
            balance := some { e with value := e.value - n },
            idem := fun s => if s = k then some 86400 else st.idem s }) ∧
      executeLua st k n =
        (.ok (e.value - n),
         { st with
            balance := some { e with value := e.value - n },
            idem := fun s => if s = k then some 86400 else st.idem s })) := by
  refine ⟨?_, ?_, ?_, ?_⟩
  · intro h
    simp [spendScript, executeLua, h]
  · intro h hb
    simp [spendScript, executeLua, h, hb]
  · intro e h hb hlt
    simp [spendScript, executeLua, h, hb, hlt]
  · intro e h hb hge
    simp [spendScript, executeLua, h, hb, not_lt.mpr hge]

/-- Witness for C1: a concrete run of every branch of the theorem, at balance
10, amount 3, key `k`; the success branch yields new balance 7 with the
marker set for 24 hours. -/
theorem spend_script_and_caller_spec_witness :
    (0 : Int) < 3 ∧
    (executeLua
        { balance := some { value := 10, expiry := none },
          idem := fun _ => none, deleted := none } "k" 3).1 = .ok 7 := by
  constructor
  · decide
  · have h := spend_script_and_caller_spec
      { balance := some { value := 10, expiry := none },
        idem := fun _ => none, deleted := none } "k" 3 (by decide)
    have h4 := (h.2.2.2 { value := 10, expiry := none } rfl rfl (by decide)).2
    rw [h4]
    decide

/-! ## C3 — at most one SUCCESS per idempotency key -/

/-- **C3.** Once an execution of the atomic spend script has returned SUCCESS
for idempotency key I, the marker `idem:I` is set (for 24 hours), and every
later execution with the same key I — while the marker lives, which is what
the un-expired marker in the model represents — replies ALREADY_PROCESSED
and leaves the fast store (in particular the balance key) exactly unchanged:
the total amount debited for that key is the single debit of the one
successful execution. -/
theorem same_key_at_most_one_success (st : FastStore) (k : String) (n : Int)
    (hsucc : (spendScript st k n).1.code = 1) :
    (spendScript st k n).2.idem k = some 86400 ∧
    ∀ ns : List Int,
      runSameKey (spendScript st k n).2 k ns =
        (ns.map fun _ => ({ code := 0, newBalance := none } : ScriptReply),
         (spendScript st k n).2) := by
  by_cases hi : (st.idem k).isSome
  · simp [spendScript, hi] at hsucc
  · cases hb : st.balance with
    | none => simp [spendScript, hi, hb] at hsucc
    | some e =>
      by_cases hlt : e.value < n
      · simp [spendScript, hi, hb, hlt] at hsucc
      · have hmark : (spendScript st k n).2.idem k = some 86400 := by
          simp [spendScript, hi, hb, hlt]
        exact ⟨hmark, runSameKey_marked _ _ (by simp [hmark])⟩

/-- Witness for C3: starting from balance 10 with no marker, a spend of 4
with key `k` succeeds, and two further executions with key `k` (amounts 4
and 1) both reply ALREADY_PROCESSED with the balance still 6. -/
theorem same_key_at_most_one_success_witness :
    (spendScript
        { balance := some { value := 10, expiry := none },
          idem := fun _ => none, deleted := none } "k" 4).1.code = 1 ∧
    (runSameKey
        (spendScript
          { balance := some { value := 10, expiry := none },
            idem := fun _ => none, deleted := none } "k" 4).2 "k" [4, 1]).2.balance =
      some { value := 6, expiry := none } := by
  constructor
  · decide
  · have h := same_key_at_most_one_success
      { balance := some { value := 10, expiry := none },
        idem := fun _ => none, deleted := none } "k" 4 (by decide)
    rw [h.2 [4, 1]]
    decide

/-! ## C4 — a failed spend consumes nothing -/

/-- **C4.** When the atomic spend script replies INSUFFICIENT_FUNDS (code -2)
or BALANCE_NOT_FOUND (code -1) it leaves the whole fast store — both the
balance key and the idempotency key — unchanged; more generally the state is
changed only on the SUCCESS path (code 1); and after an INSUFFICIENT reply a
retry with the same key against a recharged balance b ≥ N succeeds. -/
theorem failed_spend_consumes_nothing (st : FastStore) (k : String) (n : Int) :
    ((spendScript st k n).1.code = -2 ∨ (spendScript st k n).1.code = -1 →
      (spendScript st k n).2 = st) ∧
    ((spendScript st k n).1.code ≠ 1 → (spendScript st k n).2 = st) ∧
    ((spendScript st k n).1.code = -2 → ∀ b ttl, n ≤ b →
      (spendScript { st with balance := some { value := b, expiry := ttl } }
          k n).1.code = 1) := by
  by_cases hi : (st.idem k).isSome
  · refine ⟨?_, ?_, ?_⟩
    · intro h
      simp [spendScript, hi] at h
    · intro _
      simp [spendScript, hi]
    · intro h
      simp [spendScript, hi] at h
  · cases hb : st.balance with
    | none =>
      refine ⟨?_, ?_, ?_⟩
      · intro _
        simp [spendScript, hi, hb]
      · intro _
        simp [spendScript, hi, hb]
      · intro h
        simp [spendScript, hi, hb] at h
    | some e =>
      by_cases hlt : e.value < n
      · refine ⟨?_, ?_, ?_⟩
        · intro _
          simp [spendScript, hi, hb, hlt]
        · intro _
          simp [spendScript, hi, hb, hlt]
        · intro _ b ttl hbn
          simp [spendScript, hi, not_lt.mpr hbn]
      · refine ⟨?_, ?_, ?_⟩
        · intro h
          simp [spendScript, hi, hb, hlt] at h
        · intro h
          exfalso
          exact h (by simp [spendScript, hi, hb, hlt])
        · intro h
          simp [spendScript, hi, hb, hlt] at h

/-- Witness for C4: at balance 5 with no marker, a spend of 7 with key `k`
replies INSUFFICIENT_FUNDS and leaves the state untouched, and the retry with
the same key `k` at a recharged balance 12 succeeds. -/
theorem failed_spend_consumes_nothing_witness :
    (spendScript
        { balance := some { value := 5, expiry := none },
          idem := fun _ => none, deleted := none } "k" 7).2 =
      { balance := some { value := 5, expiry := none },
        idem := fun _ => none, deleted := none } ∧
    (spendScript
        { balance := some { value := 12, expiry := none },
          idem := fun _ => none, deleted := none } "k" 7).1.code = 1 := by
  have h := failed_spend_consumes_nothing
    { balance := some { value := 5, expiry := none },
      idem := fun _ => none, deleted := none } "k" 7
  refine ⟨h.1 (Or.inl (by decide)), ?_⟩
  exact h.2.2 (by decide) 12 none (by decide)

/-! ## C5 — cold start retries exactly once -/

/-- On a state whose balance key is present, `executeLua` never reports a
cache miss. -/
theorem executeLua_balance_present_no_miss (st : FastStore) (k : String)
    (n : Int) (e : BalEntry) (hb : st.balance = some e) :
    (executeLua st k n).1 ≠ .errCacheMiss := by
  by_cases hi : (st.idem k).isSome
  · simp [executeLua, spendScript, hi]
  · by_cases hlt : e.value < n
    · simp [executeLua, spendScript, hi, hb, hlt]
    · simp [executeLua, spendScript, hi, hb, hlt]

/-- **C5.** On cold start, `Spend` retries exactly once: the number of script
executions never exceeds 2; a first attempt that is not a cache miss is
returned without any retry; and when the first attempt reports
BALANCE_NOT_FOUND, the warm-up fails with `ErrNotFoundInDB` when the durable
store has no row, fails with "account is deleted" when the row's `deleted_at`
is set (no retry in either failure case), and otherwise writes the stored
amount into the balance key with no expiry and re-executes the script exactly
once, returning the second attempt's result with no further retry — and in
this sequential model the second attempt can no longer be a cache miss, since
the balance key was just written. -/
theorem spend_cold_start_retry_exactly_once (ds : DSState) (st : FastStore)
    (k : String) (n : Int) :
    (Spend ds st k n).2.2 ≤ 2 ∧
    ((executeLua st k n).1 ≠ .errCacheMiss →
      Spend ds st k n =
        (luaToResult (executeLua st k n).1, (executeLua st k n).2, 1)) ∧
    ((executeLua st k n).1 = .errCacheMiss →
      (ds.balance = none →
        Spend ds st k n = (.error .notFoundInDB, (executeLua st k n).2, 1)) ∧
      (∀ row, ds.balance = some row → row.deletedAt.isSome →
        Spend ds st k n = (.error .accountDeleted, (executeLua st k n).2, 1)) ∧
      (∀ row, ds.balance = some row → row.deletedAt = none →
        Spend ds st k n =
          (luaToResult
            (executeLua
              { (executeLua st k n).2 with
                  balance := some { value := row.amount, expiry := none } } k n).1,
           (executeLua
              { (executeLua st k n).2 with
                  balance := some { value := row.amount, expiry := none } } k n).2,
           2) ∧
        (executeLua
            { (executeLua st k n).2 with
                balance := some { value := row.amount, expiry := none } } k n).1 ≠
          .errCacheMiss)) := by
  refine ⟨?_, ?_, ?_⟩
  · cases h1 : (executeLua st k n).1 with
    | errCacheMiss =>
      cases hw : warmUpCache ds (executeLua st k n).2 with
      | error e => simp [Spend, h1, hw]
      | ok st2 => simp [Spend, h1, hw]
    | ok nb => simp [Spend, h1]
    | errAlreadyProcessed => simp [Spend, h1]
    | errInsufficient => simp [Spend, h1]
    | errUnknown c => simp [Spend, h1]
  · intro h1
    cases h : (executeLua st k n).1 with
    | errCacheMiss => exact absurd h h1
    | ok nb => simp [Spend, h]
    | errAlreadyProcessed => simp [Spend, h]
    | errInsufficient => simp [Spend, h]
    | errUnknown c => simp [Spend, h]
  · intro h1
    refine ⟨?_, ?_, ?_⟩
    · intro hds
      simp [Spend, h1, warmUpCache, hds]
    · intro row hds hdel
      simp [Spend, h1, warmUpCache, hds, hdel]
    · intro row hds hdel
      have hw : warmUpCache ds (executeLua st k n).2 =
          .ok { (executeLua st k n).2 with
                  balance := some { value := row.amount, expiry := none } } := by
        simp [warmUpCache, hds, hdel]
      refine ⟨by simp [Spend, h1, hw], ?_⟩
      exact executeLua_balance_present_no_miss _ _ _
        { value := row.amount, expiry := none } rfl

/-- Witness for C5: with an empty fast store and a live durable row of
amount 5, a spend of 2 with key `x` cold-starts, warms up, retries once, and
returns the new balance 3 with exactly 2 script executions. -/
theorem spend_cold_start_retry_exactly_once_witness :
    (Spend { balance := some { amount := 5, deletedAt := none },
             transactions := fun _ => none }
        { balance := none, idem := fun _ => none, deleted := none } "x" 2).1 =
      .ok 3 ∧
    (Spend { balance := some { amount := 5, deletedAt := none },
             transactions := fun _ => none }
        { balance := none, idem := fun _ => none, deleted := none } "x" 2).2.2 = 2 := by
  have h := spend_cold_start_retry_exactly_once
    { balance := some { amount := 5, deletedAt := none },
      transactions := fun _ => none }
    { balance := none, idem := fun _ => none, deleted := none } "x" 2
  have h2 := ((h.2.2 (by decide)).2.2 { amount := 5, deletedAt := none } rfl rfl).1
  rw [h2]
  exact ⟨rfl, rfl⟩

/-! ## C2 — no oversell -/

/-- **C2.** For every initial balance B ≥ 0, per-call amount a > 0, and any
sequential order of N = `keys.length` executions of the atomic spend script,
each with a distinct fresh idempotency key, where N is at least ⌊B/a⌋: the
number of SUCCESS outcomes is exactly ⌊B/a⌋, the remaining N − ⌊B/a⌋
executions return INSUFFICIENT_FUNDS, and the final balance is B mod a — a
natural number, so the balance never becomes negative. -/
theorem sequential_spends_no_oversell (a : Nat) (ha : 0 < a) :
    ∀ (keys : List String) (B : Nat) (st : FastStore) (ttl : Option Nat),
      keys.Nodup → (∀ k ∈ keys, st.idem k = none) →
      st.balance = some { value := (B : Int), expiry := ttl } →
      B / a ≤ keys.length →
      countOk (runSpends st (a : Int) keys).1 = B / a ∧
      countInsufficient (runSpends st (a : Int) keys).1 = keys.length - B / a ∧
      (runSpends st (a : Int) keys).2.balance =
        some { value := ((B % a : Nat) : Int), expiry := ttl } := by
  intro keys
  induction keys with
  | nil =>
    intro B st ttl _ _ hbal hle
    have h0 : B / a = 0 := Nat.le_zero.mp hle
    have hBa : B < a := by
      by_contra hge
      push_neg at hge
      have hd := Nat.div_eq_sub_div ha hge
      rw [h0] at hd
      exact Nat.succ_ne_zero _ hd.symm
    simp [runSpends, countOk, countInsufficient, h0, hbal, Nat.mod_eq_of_lt hBa]
  | cons k ks ih =>
    intro B st ttl hnd hfresh hbal hle
    have hk : st.idem k = none := hfresh k (List.mem_cons_self k ks)
    rcases List.nodup_cons.mp hnd with ⟨hknot, hnd'⟩
    rcases Nat.lt_or_ge B a with hlt | hge
    · -- insufficient step: balance below the amount, state unchanged
      have h0 : B / a = 0 := Nat.div_eq_of_lt hlt
      have hlt' : (B : Int) < (a : Int) := by exact_mod_cast hlt
      have hstep : executeLua st k (a : Int) = (.errInsufficient, st) := by
        simp [executeLua, spendScript, hk, hbal, hlt']
      have hrun : runSpends st (a : Int) (k :: ks) =
          ((LuaOutcome.errInsufficient) :: (runSpends st (a : Int) ks).1,
           (runSpends st (a : Int) ks).2) := by
        simp [runSpends, hstep]
      rcases ih B st ttl hnd'
          (fun x hx => hfresh x (List.mem_cons_of_mem _ hx)) hbal
          (by rw [h0]; exact Nat.zero_le _) with ⟨hok, hins, hfin⟩
      rw [hrun]
      refine ⟨?_, ?_, hfin⟩
      · simpa [countOk, List.countP_cons] using hok
      · simp only [countInsufficient, List.countP_cons] at hins ⊢
        norm_num
        simp only [List.length_cons, h0] at hins ⊢
        omega
    · -- success step: the script debits a and marks the key
      have hnlt : ¬ (B : Int) < (a : Int) := by
        exact_mod_cast Nat.not_lt.mpr hge
      have hstep : executeLua st k (a : Int) =
          (.ok ((B : Int) - (a : Int)),
           { st with
              balance := some { value := (B : Int) - (a : Int), expiry := ttl },
              idem := fun s => if s = k then some 86400 else st.idem s }) := by
        simp [executeLua, spendScript, hk, hbal, hnlt]
      have hrun : runSpends st (a : Int) (k :: ks) =
          ((LuaOutcome.ok ((B : Int) - (a : Int))) ::
            (runSpends
              { st with
                  balance := some { value := (B : Int) - (a : Int), expiry := ttl },
                  idem := fun s => if s = k then some 86400 else st.idem s }
              (a : Int) ks).1,
           (runSpends
              { st with
                  balance := some { value := (B : Int) - (a : Int), expiry := ttl },
                  idem := fun s => if s = k then some 86400 else st.idem s }
              (a : Int) ks).2) := by
        simp [runSpends, hstep]
      have hcast : (B : Int) - (a : Int) = ((B - a : Nat) : Int) := by omega
      have hdiv : B / a = (B - a) / a + 1 := Nat.div_eq_sub_div ha hge
      have hmod : B % a = (B - a) % a := Nat.mod_eq_sub_mod hge
      have hfresh2 : ∀ x ∈ ks,
          ({ st with
              balance := some { value := (B : Int) - (a : Int), expiry := ttl },
              idem := fun s => if s = k then some 86400 else st.idem s } :
            FastStore).idem x = none := by
        intro x hx
        have hxk : x ≠ k := fun hcontra => hknot (hcontra ▸ hx)
        show (if x = k then some 86400 else st.idem x) = none
        rw [if_neg hxk]
        exact hfresh x (List.mem_cons_of_mem _ hx)
      have hbal2 :
          ({ st with
              balance := some { value := (B : Int) - (a : Int), expiry := ttl },
              idem := fun s => if s = k then some 86400 else st.idem s } :
            FastStore).balance =
            some { value := ((B - a : Nat) : Int), expiry := ttl } := by
        show some ({ value := (B : Int) - (a : Int), expiry := ttl } : BalEntry) = _
        rw [hcast]
      have hle2 : (B - a) / a ≤ ks.length := by
        rw [hdiv] at hle
        exact Nat.le_of_succ_le_succ hle
      rcases ih (B - a) _ ttl hnd' hfresh2 hbal2 hle2 with ⟨hok, hins, hfin⟩
      rw [hrun]
      refine ⟨?_, ?_, ?_⟩
      · simp only [countOk, List.countP_cons] at hok ⊢
        simp only [hdiv]
        simp [hok]
      · simp only [countInsufficient, List.countP_cons] at hins ⊢
        simp only [List.length_cons, hdiv]
        simp only [hins]
        simp [Nat.succ_sub_succ]
      · rw [hfin, hmod]

/-- Witness for C2: balance 10, amount 3, four sequential spends with the
distinct fresh keys k1…k4 give ⌊10/3⌋ = 3 successes, 4 − 3 = 1 insufficient,
and final balance 10 mod 3 = 1. -/
theorem sequential_spends_no_oversell_witness :
    countOk (runSpends
        { balance := some { value := ((10 : Nat) : Int), expiry := none },
          idem := fun _ => none, deleted := none }
        ((3 : Nat) : Int) ["k1", "k2", "k3", "k4"]).1 = 10 / 3 ∧
    countInsufficient (runSpends
        { balance := some { value := ((10 : Nat) : Int), expiry := none },
          idem := fun _ => none, deleted := none }
        ((3 : Nat) : Int) ["k1", "k2", "k3", "k4"]).1 =
      ["k1", "k2", "k3", "k4"].length - 10 / 3 ∧
    (runSpends
        { balance := some { value := ((10 : Nat) : Int), expiry := none },
          idem := fun _ => none, deleted := none }
        ((3 : Nat) : Int) ["k1", "k2", "k3", "k4"]).2.balance =
      some { value := ((10 % 3 : Nat) : Int), expiry := none } :=
  sequential_spends_no_oversell 3 (by decide) ["k1", "k2", "k3", "k4"] 10
    { balance := some { value := ((10 : Nat) : Int), expiry := none },
      idem := fun _ => none, deleted := none } none
    (by decide) (by intro x _; rfl) rfl (by decide)

/-! ## C6 — missing balance row during sync -/

/-- **C6** (code bug, demonstrated). The claim says that when
`SyncTransactionWithBalance` inserts a new transactions row and the balance
decrement then affects zero rows, the transaction is rolled back and a fatal
error surfaced.  The current implementation (`src/unnamed/part_002`,
lines 141–170) does neither: at the concrete failing input — an event with
idempotency key `k` against a durable store with no balances row — it
returns nil and commits, leaving the freshly inserted transactions row in
place.  The older draft in `src/internal/repository/ledger.go`
(lines 172–214), embedded as `syncTransactionWithBalanceChecked`, does
implement the claimed behaviour: it returns the fatal error and leaves the
store unchanged (the rollback). -/
theorem sync_missing_balance_commits_anyway :
    (SyncTransactionWithBalance
        { balance := none, transactions := fun _ => none }
        { accountId := "acct", resourceType := "cr", amount := 5,
          idempotencyKey := "k", createdAt := 0 }).1 = .ok () ∧
    ((SyncTransactionWithBalance
        { balance := none, transactions := fun _ => none }
        { accountId := "acct", resourceType := "cr", amount := 5,
          idempotencyKey := "k", createdAt := 0 }).2.transactions "k").isSome ∧
    (SyncTransactionWithBalance
        { balance := none, transactions := fun _ => none }
        { accountId := "acct", resourceType := "cr", amount := 5,
          idempotencyKey := "k", createdAt := 0 }).2.balance = none ∧
    syncTransactionWithBalanceChecked
        { balance := none, transactions := fun _ => none }
        { accountId := "acct", resourceType := "cr", amount := 5,
          idempotencyKey := "k", createdAt := 0 } =
      (.error (.noBalanceRow "acct"),
       { balance := none, transactions := fun _ => none }) :=
  ⟨rfl, rfl, rfl, rfl⟩

/-! ## C7 — sync is idempotent per event -/

/-- **C7.** `SyncTransactionWithBalance` is idempotent per event: for every
spend event e, applying it to a durable-store state that already contains a
transactions row with e's idempotency_key succeeds as a no-op — the
unique-key conflict is detected through `insertedKey == ""`, no new
transactions row is created, the balances row is not decremented again, and
the state is returned bit-for-bit unchanged — and, for every event and every
starting state, the state after processing e twice equals the state after
processing it once (the second application always returns ok on the
unchanged state; for an event with an empty idempotency key both
applications are already no-ops, since the code rolls back even a fresh
insert of the empty key). -/
theorem sync_idempotent_per_event (ds : DSState) (ev : SpendEvent) :
    ((ds.transactions ev.idempotencyKey).isSome →
      SyncTransactionWithBalance ds ev = (.ok (), ds)) ∧
    SyncTransactionWithBalance (SyncTransactionWithBalance ds ev).2 ev =
      (.ok (), (SyncTransactionWithBalance ds ev).2) := by
  have conflict_noop : ∀ d : DSState,
      (d.transactions ev.idempotencyKey).isSome →
      SyncTransactionWithBalance d ev = (.ok (), d) := by
    intro d hd
    obtain ⟨row, hrow⟩ := Option.isSome_iff_exists.mp hd
    simp [SyncTransactionWithBalance, hrow]
  refine ⟨conflict_noop ds, ?_⟩
  cases htx : ds.transactions ev.idempotencyKey with
  | some row =>
    have h1 : SyncTransactionWithBalance ds ev = (.ok (), ds) :=
      conflict_noop ds (by simp [htx])
    rw [h1]
    exact h1
  | none =>
    by_cases hkey : ev.idempotencyKey = ""
    · rw [hkey] at htx
      have h1 : SyncTransactionWithBalance ds ev = (.ok (), ds) := by
        simp [SyncTransactionWithBalance, hkey, htx]
      rw [h1]
      exact h1
    · have hpresent :
          ((SyncTransactionWithBalance ds ev).2.transactions
              ev.idempotencyKey).isSome := by
        cases hb : ds.balance with
        | some row => simp [SyncTransactionWithBalance, htx, hkey, hb]
        | none => simp [SyncTransactionWithBalance, htx, hkey, hb]
      exact conflict_noop _ hpresent

/-- Witness for C7: a store already holding the transactions row for key
`k1` (balance 40), hit again by the event for `k1`: the conflict is a
successful no-op, and the second application equals the first. -/
theorem sync_idempotent_per_event_witness :
    SyncTransactionWithBalance
        { balance := some { amount := 40, deletedAt := none },
          transactions := fun k =>
            if k = "k1" then
              some { accountId := "acct", resourceType := "cr",
                     amount := 30, createdAt := 0 }
            else none }
        { accountId := "acct", resourceType := "cr", amount := 30,
          idempotencyKey := "k1", createdAt := 0 } =
      (.ok (),
       { balance := some { amount := 40, deletedAt := none },
         transactions := fun k =>
           if k = "k1" then
             some { accountId := "acct", resourceType := "cr",
                    amount := 30, createdAt := 0 }
           else none }) :=
  (sync_idempotent_per_event
    { balance := some { amount := 40, deletedAt := none },
      transactions := fun k =>
        if k = "k1" then
          some { accountId := "acct", resourceType := "cr",
                 amount := 30, createdAt := 0 }
        else none }
    { accountId := "acct", resourceType := "cr", amount := 30,
      idempotencyKey := "k1", createdAt := 0 }).1 rfl

/-! ## C8 — tombstone semantics after DeleteAccount -/

/-- **C8, counterexample.** The claim says every Spend after a successful
DeleteAccount fails with NotFound or Deleted.  Not so: the `idem:` markers
survive account deletion, so a Spend that reuses an idempotency key consumed
before the deletion fails with `ErrAlreadyProcessed` instead — the script
checks the marker before ever looking at the balance.  Concretely: balance
row live at 100, marker for key `k` present (set by a prior successful
spend), DeleteAccount succeeds, and the retried Spend with key `k` returns
`ErrAlreadyProcessed`, which is neither `ErrNotFoundInDB` nor the
"account is deleted" failure. -/
theorem tombstone_spend_reused_key_counterexample :
    (DeleteAccount
        { balance := some { amount := 100, deletedAt := none },
          transactions := fun _ => none }
        { balance := some { value := 60, expiry := none },
          idem := fun s => if s = "k" then some 86400 else none,
          deleted := none } 7).1 = .ok () ∧
    (Spend
        (DeleteAccount
          { balance := some { amount := 100, deletedAt := none },
            transactions := fun _ => none }
          { balance := some { value := 60, expiry := none },
            idem := fun s => if s = "k" then some 86400 else none,
            deleted := none } 7).2.1
        (DeleteAccount
          { balance := some { amount := 100, deletedAt := none },
            transactions := fun _ => none }
          { balance := some { value := 60, expiry := none },
            idem := fun s => if s = "k" then some 86400 else none,
            deleted := none } 7).2.2 "k" 40).1 = .error .alreadyProcessed ∧
    (Except.error LedgerError.alreadyProcessed : Except LedgerError Int) ≠
      .error .notFoundInDB ∧
    (Except.error LedgerError.alreadyProcessed : Except LedgerError Int) ≠
      .error .accountDeleted := by
  refine ⟨rfl, rfl, ?_, ?_⟩
  · intro h
    exact absurd (Except.error.inj h) (by decide)
  · intro h
    exact absurd (Except.error.inj h) (by decide)

/-- **C8, amended.** After a successful DeleteAccount(account, resource), and
until a new CreateAccount for that key: every Spend whose idempotency key is
not already marked fails with the "account is deleted" error (the warm-up
sees the tombstoned row), while a Spend whose idempotency key was consumed
earlier fails with `ErrAlreadyProcessed`; every GetBalance fails with the
"account is deleted" error; and every Recharge fails with `ErrNotFoundInDB`
(its update is restricted to rows with `deleted_at IS NULL` and so affects
zero rows). -/
theorem tombstone_blocks_operations (ds : DSState) (st : FastStore)
    (row : BalRow) (now : Nat) (hrow : ds.balance = some row)
    (hlive : row.deletedAt = none) :
    (DeleteAccount ds st now).1 = .ok () ∧
    (∀ k n, (DeleteAccount ds st now).2.2.idem k = none →
      (Spend (DeleteAccount ds st now).2.1
          (DeleteAccount ds st now).2.2 k n).1 = .error .accountDeleted) ∧
    (∀ k n, ((DeleteAccount ds st now).2.2.idem k).isSome →
      (Spend (DeleteAccount ds st now).2.1
          (DeleteAccount ds st now).2.2 k n).1 = .error .alreadyProcessed) ∧
    (GetBalance (DeleteAccount ds st now).2.1
        (DeleteAccount ds st now).2.2).1 = .error .accountDeleted ∧
    (∀ d : Int, (Recharge (DeleteAccount ds st now).2.1
        (DeleteAccount ds st now).2.2 d).1 = .error .notFoundInDB) := by
  have hdel : DeleteAccount ds st now =
      (.ok (),
       { ds with balance := some { row with deletedAt := some now } },
       { st with balance := none, deleted := some 30 }) := by
    simp [DeleteAccount, hrow, hlive]
  rw [hdel]
  refine ⟨rfl, ?_, ?_, ?_, ?_⟩
  · intro k n hk
    simp only at hk
    simp [Spend, executeLua, spendScript, warmUpCache, hk]
  · intro k n hk
    simp only at hk
    simp [Spend, executeLua, spendScript, luaToResult, hk]
  · simp [GetBalance, warmUpCache]
  · intro d
    simp [Recharge]

/-- Witness for the amended C8: concretely, after deleting the live account
(durable amount 100, one consumed marker `k`), a fresh-key spend of 1 fails
with "account is deleted", GetBalance fails the same way, and a recharge of
10 fails with `ErrNotFoundInDB`. -/
theorem tombstone_blocks_operations_witness :
    (Spend
        (DeleteAccount
          { balance := some { amount := 100, deletedAt := none },
            transactions := fun _ => none }
          { balance := some { value := 60, expiry := none },
            idem := fun s => if s = "k" then some 86400 else none,
            deleted := none } 7).2.1
        (DeleteAccount
          { balance := some { amount := 100, deletedAt := none },
            transactions := fun _ => none }
          { balance := some { value := 60, expiry := none },
            idem := fun s => if s = "k" then some 86400 else none,
            deleted := none } 7).2.2 "fresh" 1).1 = .error .accountDeleted ∧
    (GetBalance
        (DeleteAccount
          { balance := some { amount := 100, deletedAt := none },
            transactions := fun _ => none }
          { balance := some { value := 60, expiry := none },
            idem := fun s => if s = "k" then some 86400 else none,
            deleted := none } 7).2.1
        (DeleteAccount
          { balance := some { amount := 100, deletedAt := none },
            transactions := fun _ => none }
          { balance := some { value := 60, expiry := none },
            idem := fun s => if s = "k" then some 86400 else none,
            deleted := none } 7).2.2).1 = .error .accountDeleted ∧
    (Recharge
        (DeleteAccount
          { balance := some { amount := 100, deletedAt := none },
            transactions := fun _ => none }
          { balance := some { value := 60, expiry := none },
            idem := fun s => if s = "k" then some 86400 else none,
            deleted := none } 7).2.1
        (DeleteAccount
          { balance := some { amount := 100, deletedAt := none },
            transactions := fun _ => none }
          { balance := some { value := 60, expiry := none },
            idem := fun s => if s = "k" then some 86400 else none,
            deleted := none } 7).2.2 10).1 = .error .notFoundInDB := by
  have h := tombstone_blocks_operations
    { balance := some { amount := 100, deletedAt := none },
      transactions := fun _ => none }
    { balance := some { value := 60, expiry := none },
      idem := fun s => if s = "k" then some 86400 else none,
      deleted := none }
    { amount := 100, deletedAt := none } 7 rfl rfl
  exact ⟨h.2.1 "fresh" 1 rfl, h.2.2.2.1, h.2.2.2.2 10⟩

/-! ## C9 — Spend does not enforce its preconditions -/

/-- **C9** (code bug, demonstrated). The claim says Spend rejects calls with
amount ≤ 0 or an empty idempotency key as invalid input, and that no Spend
ever increases the balance.  Neither the HTTP handler, the service interface,
nor `LedgerRepo.Spend` validates the request, and the script's only amount
check is `balance < amount`: at the concrete failing input — balance 10,
fresh key `k`, amount −5 — `10 < −5` is false, `DECRBY` by −5 *increases*
the balance, and Spend returns SUCCESS with new balance 15.  An amount of 0
likewise "succeeds" (balance unchanged, key consumed), and an empty
idempotency key is accepted like any other (marker `idem:` is set). -/
theorem spend_skips_validation_and_can_increase_balance :
    (Spend
        { balance := some { amount := 10, deletedAt := none },
          transactions := fun _ => none }
        { balance := some { value := 10, expiry := none },
          idem := fun _ => none, deleted := none } "k" (-5)).1 = .ok 15 ∧
    (Spend
        { balance := some { amount := 10, deletedAt := none },
          transactions := fun _ => none }
        { balance := some { value := 10, expiry := none },
          idem := fun _ => none, deleted := none } "k" (-5)).2.1.balance =
      some { value := 15, expiry := none } ∧
    (Spend
        { balance := some { amount := 10, deletedAt := none },
          transactions := fun _ => none }
        { balance := some { value := 10, expiry := none },
          idem := fun _ => none, deleted := none } "k" 0).1 = .ok 10 ∧
    (Spend
        { balance := some { amount := 10, deletedAt := none },
          transactions := fun _ => none }
        { balance := some { value := 10, expiry := none },
          idem := fun _ => none, deleted := none } "" 3).1 = .ok 7 ∧
    (Spend
        { balance := some { amount := 10, deletedAt := none },
          transactions := fun _ => none }
        { balance := some { value := 10, expiry := none },
          idem := fun _ => none, deleted := none } "" 3).2.1.idem "" =
      some 86400 :=
  ⟨rfl, rfl, rfl, rfl, rfl⟩

/-! ## C10 — a tombstoned pair cannot be recreated -/

/-- **C10.** DeleteAccount only soft-deletes (the balances row keeps its
primary key) and CreateAccount inserts with
`ON CONFLICT (account_id, resource_type) DO NOTHING`, reporting
"account already exists" when zero rows are affected — so after a
CreateAccount/DeleteAccount cycle every further CreateAccount for the same
key fails with the already-exists error and changes nothing: a tombstoned
(account, resource) pair can never be recreated through the public
interface.  The last conjunct is the general fact: any present balances row,
live or tombstoned, blocks creation. -/
theorem tombstoned_account_cannot_be_recreated (ds : DSState) (st : FastStore)
    (a0 : Int) (now : Nat) (hempty : ds.balance = none) :
    (CreateAccount ds st a0).1 = .ok () ∧
    (DeleteAccount (CreateAccount ds st a0).2.1
        (CreateAccount ds st a0).2.2 now).1 = .ok () ∧
    (∀ a1 : Int,
      CreateAccount
          (DeleteAccount (CreateAccount ds st a0).2.1
            (CreateAccount ds st a0).2.2 now).2.1
          (DeleteAccount (CreateAccount ds st a0).2.1
            (CreateAccount ds st a0).2.2 now).2.2 a1 =
        (.error .alreadyExists,
         (DeleteAccount (CreateAccount ds st a0).2.1
            (CreateAccount ds st a0).2.2 now).2.1,
         (DeleteAccount (CreateAccount ds st a0).2.1
            (CreateAccount ds st a0).2.2 now).2.2)) ∧
    (∀ (d : DSState) (st2 : FastStore) (a1 : Int) (row : BalRow),
      d.balance = some row →
      CreateAccount d st2 a1 = (.error .alreadyExists, d, st2)) := by
  have hcreate : CreateAccount ds st a0 =
      (.ok (),
       { ds with balance := some { amount := a0, deletedAt := none } },
       { st with balance := some { value := a0, expiry := none } }) := by
    simp [CreateAccount, hempty]
  have hgeneral : ∀ (d : DSState) (st2 : FastStore) (a1 : Int) (row : BalRow),
      d.balance = some row →
      CreateAccount d st2 a1 = (.error .alreadyExists, d, st2) := by
    intro d st2 a1 row hd
    simp [CreateAccount, hd]
  refine ⟨by rw [hcreate], ?_, ?_, hgeneral⟩
  · rw [hcreate]
    rfl
  · intro a1
    rw [hcreate]
    exact hgeneral _ _ a1 { amount := a0, deletedAt := some now } rfl

/-- Witness for C10: from an empty store, create with initial amount 100,
delete at time 7, and the re-create with amount 50 fails with the
already-exists error. -/
theorem tombstoned_account_cannot_be_recreated_witness :
    (CreateAccount
        { balance := none, transactions := fun _ => none }
        { balance := none, idem := fun _ => none, deleted := none } 100).1 =
      .ok () ∧
    (CreateAccount
        (DeleteAccount
          (CreateAccount
            { balance := none, transactions := fun _ => none }
            { balance := none, idem := fun _ => none, deleted := none } 100).2.1
          (CreateAccount
            { balance := none, transactions := fun _ => none }
            { balance := none, idem := fun _ => none, deleted := none } 100).2.2
          7).2.1
        (DeleteAccount
          (CreateAccount
            { balance := none, transactions := fun _ => none }
            { balance := none, idem := fun _ => none, deleted := none } 100).2.1
          (CreateAccount
            { balance := none, transactions := fun _ => none }
            { balance := none, idem := fun _ => none, deleted := none } 100).2.2
          7).2.2 50).1 = .error .alreadyExists := by
  have h := tombstoned_account_cannot_be_recreated
    { balance := none, transactions := fun _ => none }
    { balance := none, idem := fun _ => none, deleted := none } 100 7 rfl
  refine ⟨h.1, ?_⟩
  rw [h.2.2.1 50]
